import Mathlib

/-!
Verification of the core logic of the `overhead` flight-alert program.

The program ingests aircraft position reports, tracks the most recent
interesting position per flight, raises an alert when a flight is strictly
closing on the observation point inside the alert radius, evicts stale
flights, and verbalizes positions into speakable words.

Modelling conventions:
- Go `float64` values (coordinates, distances, altitudes, bearings) are
  modelled as `ℚ`; Go `time.Time` values as `ℤ` epoch seconds.
- The geospatial collaborator (`geo.Latlong.DistNM`) is out of scope of the
  core and is modelled as an explicit function parameter `distNM`.
- The numeric-parsing collaborators (`strconv.ParseFloat`,
  `strconv.ParseInt`) are modelled as explicit function parameters
  returning `Option`.
- The Go map `flights map[string]*Position` is modelled as an association
  list with unique keys; map iteration order is irrelevant to the code.
-/

namespace Overhead

/-- Geographic point, from `geo.Latlong` (latitude and longitude). -/
structure Latlong where
  lat : ℚ
  long : ℚ
deriving DecidableEq, Repr

/-- One aircraft observation, from `type Position struct` in `main.go`
(lines 175-187).  Optional numeric fields (`*float64` in Go) are `Option ℚ`;
the timestamp is epoch seconds. -/
structure Position where
  flightID : String
  point : Latlong
  altitude : Option ℚ
  ident : String
  reg : String
  origin : String
  destination : String
  aircraftType : String
  speed : Option ℚ
  heading : Option ℚ
  timestamp : ℤ
deriving DecidableEq, Repr

/-- Configuration fields of `type App struct` in `main.go` (lines 85-95). -/
structure App where
  latitude : ℚ
  longitude : ℚ
  interestingRadiusNM : ℚ
  interestingCeilingFt : ℚ
  alertRadiusNM : ℚ
deriving DecidableEq, Repr

/-- Mutable state of the `App`: the flight tracker map and the logical
clock (`flights` and `currentTime` in `main.go` lines 96-98). -/
structure AppState where
  flights : List (String × Position)
  currentTime : ℤ
deriving DecidableEq, Repr

/-- From `App.myLocation` in `main.go` (lines 245-250). -/
def myLocation (a : App) : Latlong :=
  { lat := a.latitude, long := a.longitude }

/-- From `App.isInteresting` in `main.go` (lines 164-173): a position is
interesting iff its distance to the observation point is within the
interesting radius and its altitude, when present, is at most the ceiling. -/
def isInteresting (distNM : Latlong → Latlong → ℚ) (a : App) (pos : Position) :
    Bool :=
  let dist := distNM pos.point (myLocation a)
  if dist > a.interestingRadiusNM then false
  else
    match pos.altitude with
    | some alt => if alt > a.interestingCeilingFt then false else true
    | none => true

/-- Go map assignment `a.flights[k] = v`: replaces any existing entry for
the key. -/
def insertFlight (m : List (String × Position)) (k : String) (v : Position) :
    List (String × Position) :=
  (k, v) :: m.filter (fun kv => kv.1 ≠ k)

/-- `CleanupAfter = 10 * time.Minute` from `main.go` line 26, in seconds. -/
def CleanupAfter : ℤ := 600

/-- From `App.cleanupStaleFlights` in `main.go` (lines 141-148): delete
every flight with `flight.Timestamp.Add(CleanupAfter).Before(a.currentTime)`,
keep the rest. -/
def cleanupStaleFlights (s : AppState) : AppState :=
  { s with
    flights :=
      s.flights.filter (fun kv => ¬ (kv.2.timestamp + CleanupAfter < s.currentTime)) }

/-- The post-parse stage of `App.handlePosition` in `main.go`
(lines 258-274): advance the logical clock to the report timestamp, drop
uninteresting reports, compare against the tracked previous position, and
store the current position.  The returned `Bool` records whether
`a.alert(curr)` was invoked. -/
def trackPosition (distNM : Latlong → Latlong → ℚ) (a : App) (s : AppState)
    (curr : Position) : AppState × Bool :=
  let s1 : AppState := { s with currentTime := curr.timestamp }
  if isInteresting distNM a curr then
    let alerted : Bool :=
      match s1.flights.lookup curr.flightID with
      | some prev =>
        let me := myLocation a
        let distToPrev := distNM prev.point me
        let distToCurr := distNM curr.point me
        decide (distToCurr < distToPrev ∧ distToCurr < a.alertRadiusNM)
      | none => false
    ({ s1 with flights := insertFlight s1.flights curr.flightID curr }, alerted)
  else
    (s1, false)

/-- The per-character table of `phonetic` in `main.go` (lines 448-498):
letters map to the phonetic alphabet, digits to their spoken names
(9 is "niner"), the period to "point"; any other character passes through
unchanged as a single-character token. -/
def phoneticChar (c : Char) : String :=
  match c with
  | 'A' => "alpha"
  | 'B' => "bravo"
  | 'C' => "charlie"
  | 'D' => "delta"
  | 'E' => "echo"
  | 'F' => "foxtrot"
  | 'G' => "golf"
  | 'H' => "hotel"
  | 'I' => "india"
  | 'J' => "juliet"
  | 'K' => "kilo"
  | 'L' => "lima"
  | 'M' => "mike"
  | 'N' => "november"
  | 'O' => "oscar"
  | 'P' => "papa"
  | 'Q' => "quebec"
  | 'R' => "romeo"
  | 'S' => "sierra"
  | 'T' => "tango"
  | 'U' => "uniform"
  | 'V' => "victor"
  | 'W' => "whiskey"
  | 'X' => "x-ray"
  | 'Y' => "yankee"
  | 'Z' => "zulu"
  | '0' => "zero"
  | '1' => "one"
  | '2' => "two"
  | '3' => "three"
  | '4' => "four"
  | '5' => "five"
  | '6' => "six"
  | '7' => "seven"
  | '8' => "eight"
  | '9' => "niner"
  | '.' => "point"
  | other => String.singleton other

/-- From `phonetic` in `main.go` (lines 448-498): one word per input
character. -/
def phonetic (plain : String) : List String :=
  plain.data.map phoneticChar

/-- The airline-callsign table of `icaoCallsign` in `main.go`
(lines 406-431). -/
def callsignTable : List (String × String) :=
  [ ("UAL", "united"),
    ("FDX", "fedex"),
    ("DAL", "delta"),
    ("KAP", "cair"),
    ("NKS", "spirit"),
    ("RPA", "brickyard"),
    ("ACA", "air canada"),
    ("POE", "porter"),
    ("SWA", "southwest"),
    ("JBU", "jet blue"),
    ("EIN", "shamrock"),
    ("AAL", "american"),
    ("ASA", "alaska"),
    ("FFT", "frontier flight"),
    ("JAL", "japan air"),
    ("JZA", "jazz"),
    ("AFR", "air france"),
    ("FPY", "player"),
    ("WUP", "up jet"),
    ("BAW", "speed bird"),
    ("VJA", "vista am") ]

/-- From `icaoCallsign` in `main.go` (lines 406-431): Go map lookup, the
zero value (empty string) when the code is unknown. -/
def icaoCallsign (icao : String) : String :=
  ((callsignTable.lookup icao).getD (""))

/-- Uppercase ASCII letter test, the character class of the Go regular
expression `^[A-Z]{3}` in `identToWords`. -/
def isUpperAlpha (c : Char) : Bool :=
  decide ('A' ≤ c ∧ c ≤ 'Z')

/-- ASCII digit test, the character class of the Go regular expression
`^[0-9]{2,4}$` in `identToWords`. -/
def isDigitChar (c : Char) : Bool :=
  decide ('0' ≤ c ∧ c ≤ '9')

/-- The anchored match `regexp.MustCompile("^[A-Z]{3}").FindString(ident)`:
the first three characters when they are all uppercase letters, otherwise
the empty string. -/
def icaoCode (ident : String) : String :=
  let cs := ident.data.take 3
  if cs.length = 3 ∧ cs.all isUpperAlpha = true then String.mk cs else ("")

/-- From `identToWords` in `main.go` (lines 377-404): when the ident does
not start with three uppercase letters, or the three-letter code has no
callsign mapping, the whole ident is phoneticized; otherwise the callsign
word is followed by the suffix decomposition (a 2-digit suffix as one
token, 3 digits as first digit then last two, 4 digits as first two then
last two, anything else phoneticized character by character). -/
def identToWords (ident : String) : List String :=
  let icao := icaoCode ident
  if icao = "" then phonetic ident
  else
    let suffix := String.mk (ident.data.drop 3)
    let callsign := icaoCallsign icao
    if callsign = "" then phonetic ident
    else
      let ds := suffix.data
      if 2 ≤ ds.length ∧ ds.length ≤ 4 ∧ ds.all isDigitChar = true then
        match ds.length with
        | 2 => [callsign, suffix]
        | 3 => [callsign, String.mk (ds.take 1), String.mk (ds.drop 1)]
        | 4 => [callsign, String.mk (ds.take 2), String.mk (ds.drop 2)]
        | _ => [callsign]
      else
        callsign :: phonetic suffix

/-- Go conversion `int(x)` of a `float64`: truncation toward zero.  On a
rational this is the truncated quotient of numerator by denominator
(`Int.tdiv` truncates toward zero, matching Go). -/
def goTrunc (q : ℚ) : ℤ :=
  Int.tdiv q.num (q.den : ℤ)

/-- From `altitudeToWords` in `main.go` (lines 433-446): integer-truncate
the altitude, split into thousands and hundreds with Go integer division
(truncation toward zero), and emit each digit group phonetically followed
by its unit word only when the group is strictly positive. -/
def altitudeToWords (altitude : ℚ) : List String :=
  let t := goTrunc altitude
  let thousands := Int.tdiv t 1000
  let firstPart :=
    if thousands > 0 then phonetic (toString thousands) ++ ["thousand"] else []
  let hundreds := Int.tdiv (t - thousands * 1000) 100
  let secondPart :=
    if hundreds > 0 then phonetic (toString hundreds) ++ ["hundred"] else []
  firstPart ++ secondPart

/-- From `cardinalDirection` in `main.go` (lines 500-526): full-word
labels. -/
def cardinalDirection (bearing : ℚ) : String :=
  if bearing > 337.5 ∨ bearing ≤ 22.5 then ("north")
  else if bearing > 22.5 ∧ bearing ≤ 67.5 then ("northeast")
  else if bearing > 67.5 ∧ bearing ≤ 112.5 then ("east")
  else if bearing > 112.5 ∧ bearing ≤ 157.5 then ("southeast")
  else if bearing > 157.5 ∧ bearing ≤ 202.5 then ("south")
  else if bearing > 202.5 ∧ bearing ≤ 247.5 then ("southwest")
  else if bearing > 247.5 ∧ bearing ≤ 292.5 then ("west")
  else if bearing > 292.5 ∧ bearing ≤ 337.5 then ("northwest")
  else ("")

/-- From `cardinalDirection` in the LCD variant (`sync.sh` embedded Go,
lines 259-285): the same bucketing with two-letter labels. -/
def cardinalDirectionAbbrev (bearing : ℚ) : String :=
  if bearing > 337.5 ∨ bearing ≤ 22.5 then ("N")
  else if bearing > 22.5 ∧ bearing ≤ 67.5 then ("NE")
  else if bearing > 67.5 ∧ bearing ≤ 112.5 then ("E")
  else if bearing > 112.5 ∧ bearing ≤ 157.5 then ("SE")
  else if bearing > 157.5 ∧ bearing ≤ 202.5 then ("S")
  else if bearing > 202.5 ∧ bearing ≤ 247.5 then ("SW")
  else if bearing > 247.5 ∧ bearing ≤ 292.5 then ("W")
  else if bearing > 292.5 ∧ bearing ≤ 337.5 then ("NW")
  else ("")

/-- The raw wire-format report handed over by the transport collaborator:
the string fields of `firehose.PositionMessage` read by `newPosition`. -/
structure PositionMessage where
  idField : String
  latField : String
  lonField : String
  altField : String
  identField : String
  regField : String
  origField : String
  destField : String
  aircraftTypeField : String
  gsField : String
  headingField : String
  headingTrueField : String
  clockField : String
deriving DecidableEq, Repr

/-- The field named by a parse failure of `newPosition` in `main.go`
(the `fmt.Errorf` tags "lat", "lon", "alt", "gs", "heading", "clock"). -/
inductive ParseField where
  | lat
  | lon
  | alt
  | gs
  | heading
  | clock
deriving DecidableEq, Repr

/-- The heading candidate selected by `newPosition` in `main.go`
(lines 223-229): `HeadingTrue` when non-empty, otherwise `Heading`. -/
def selectedHeading (msg : PositionMessage) : String :=
  if msg.headingTrueField ≠ "" then msg.headingTrueField else msg.headingField

/-- From `newPosition` in `main.go` (lines 189-243), parametric over the
numeric-parsing collaborators: latitude, longitude and clock are mandatory;
altitude, ground speed and the selected heading candidate are parsed only
when non-empty; the first failing field aborts with its tag. -/
def newPosition (pf : String → Option ℚ) (pint : String → Option ℤ)
    (msg : PositionMessage) : Except ParseField Position :=
  match pf msg.latField with
  | none => Except.error ParseField.lat
  | some lat =>
  match pf msg.lonField with
  | none => Except.error ParseField.lon
  | some lon =>
  match (if msg.altField = "" then Except.ok none
         else match pf msg.altField with
              | none => Except.error ParseField.alt
              | some v => Except.ok (some v) : Except ParseField (Option ℚ)) with
  | Except.error e => Except.error e
  | Except.ok altitude =>
  match (if msg.gsField = "" then Except.ok none
         else match pf msg.gsField with
              | none => Except.error ParseField.gs
              | some v => Except.ok (some v) : Except ParseField (Option ℚ)) with
  | Except.error e => Except.error e
  | Except.ok speed =>
  match (if selectedHeading msg = "" then Except.ok none
         else match pf (selectedHeading msg) with
              | none => Except.error ParseField.heading
              | some v => Except.ok (some v) : Except ParseField (Option ℚ)) with
  | Except.error e => Except.error e
  | Except.ok heading =>
  match pint msg.clockField with
  | none => Except.error ParseField.clock
  | some clock =>
    Except.ok
      { flightID := msg.idField
        point := { lat := lat, long := lon }
        altitude := altitude
        ident := msg.identField
        reg := msg.regField
        origin := msg.origField
        destination := msg.destField
        aircraftType := msg.aircraftTypeField
        speed := speed
        heading := heading
        timestamp := clock }

/-- Full `App.handlePosition` from `main.go` (lines 252-275): parse the raw
message (a parse failure is logged and the state is untouched), then run
the tracker stage.  The `Bool` records whether an alert was raised. -/
def handlePosition (pf : String → Option ℚ) (pint : String → Option ℤ)
    (distNM : Latlong → Latlong → ℚ) (a : App) (s : AppState)
    (msg : PositionMessage) : AppState × Bool :=
  match newPosition pf pint msg with
  | Except.error _ => (s, false)
  | Except.ok curr => trackPosition distNM a s curr

/-- The word list built by `App.say` in `main.go` (lines 343-370), before
being joined with spaces and handed to the speech collaborator.  The
`%.1f`-formatted distance and the `%.0f`-formatted speed are string
formatting done by the standard library and enter as already-formatted
parameters. -/
def sayWords (distStr : String) (bearing : ℚ) (curr : Position)
    (speedStr : String) : List String :=
  identToWords curr.ident
    ++ ["is"]
    ++ phonetic distStr
    ++ ["nautical miles"]
    ++ ["to the", cardinalDirection bearing, ","]
    ++ (match curr.altitude with
        | some alt => ["at"] ++ altitudeToWords alt ++ [","]
        | none => [])
    ++ (match curr.heading with
        | some hdg => [cardinalDirection hdg, "bound", ","]
        | none => [])
    ++ (match curr.speed with
        | some _ => phonetic speedStr ++ ["knots"]
        | none => [])

/-- `FT_PER_NM = 6080.0` from the LCD variant (`sync.sh` embedded Go,
line 39). -/
def FT_PER_NM : ℚ := 6080

/-- The LCD variant `Position` (`sync.sh` embedded Go, lines 178-192): the
same observation fields plus the precomputed distance and bearing to the
observation point. -/
structure LcdPosition where
  base : Position
  distance : ℚ
  bearing : ℚ
deriving DecidableEq, Repr

/-- From `assumeAltitude` in the LCD variant (`sync.sh` embedded Go,
lines 353-358): the stored altitude when present, otherwise 5000 feet. -/
def assumeAltitude (p : LcdPosition) : ℚ :=
  match p.base.altitude with
  | some a => a
  | none => 5000

/-- From `shouldReplace` in the LCD variant (`sync.sh` embedded Go,
lines 324-351), parametric over the square-root collaborator (`math.Sqrt`)
and the wall clock (`time.Now()`, in epoch seconds): with no previous
position, replace; otherwise replace when the 3-D slant distance of the
new position (horizontal distance in feet and assumed altitude) is
strictly smaller, or when the previous position is over a minute old. -/
def shouldReplace (sqrtFt : ℚ → ℚ) (now : ℤ) (prev : Option LcdPosition)
    (curr : LcdPosition) : Bool :=
  match prev with
  | none => true
  | some prevPos =>
    let prevDistFt := prevPos.distance * FT_PER_NM
    let currDistFt := curr.distance * FT_PER_NM
    let prevAlt := assumeAltitude prevPos
    let currAlt := assumeAltitude curr
    let prevDist := sqrtFt (prevDistFt * prevDistFt + prevAlt * prevAlt)
    let currDist := sqrtFt (currDistFt * currDistFt + currAlt * currAlt)
    if currDist < prevDist then true
    else if now - prevPos.base.timestamp > 60 then true
    else false

/-- The flight-number suffix decomposition as the specification words it:
a suffix of 2 to 4 consecutive digits splits as 2 to the whole pair as one
token, 3 to first digit then last two, 4 to first two then last two; any
other suffix is phoneticized character by character.  Stated separately to
compare against the source-derived `identToWords`. -/
def specSuffixDecomposition (suffix : String) : List String :=
  let ds := suffix.data
  if 2 ≤ ds.length ∧ ds.length ≤ 4 ∧ ds.all isDigitChar = true then
    match ds.length with
    | 2 => [suffix]
    | 3 => [String.mk (ds.take 1), String.mk (ds.drop 1)]
    | 4 => [String.mk (ds.take 2), String.mk (ds.drop 2)]
    | _ => []
  else phonetic suffix

/-- Test fixture: a simple linear stand-in for the great-circle distance
collaborator, enough to exercise the tracker logic on concrete points with
coordinates to the north-east of the observation point. -/
def exDist (p q : Latlong) : ℚ :=
  (p.lat - q.lat) + (p.long - q.long)

/-- Test fixture: a configuration with the default radii of `main.go`. -/
def exApp : App :=
  { latitude := 0, longitude := 0, interestingRadiusNM := 10,
    interestingCeilingFt := 15000, alertRadiusNM := 3 }

/-- Test fixture: a position with the given identifier, point, altitude
and timestamp. -/
def mkPosition (id : String) (lat : ℚ) (long : ℚ) (alt : Option ℚ)
    (ts : ℤ) : Position :=
  { flightID := id, point := { lat := lat, long := long }, altitude := alt,
    ident := id, reg := "", origin := "", destination := "",
    aircraftType := "", speed := none, heading := none, timestamp := ts }

/-- Test fixture: previously tracked position of flight F1, 2 nm out. -/
def exPrev : Position := mkPosition ("F1") 2 0 none 10

/-- Test fixture: current position of flight F1, 1 nm out. -/
def exCurr : Position := mkPosition ("F1") 1 0 none 20

/-- Test fixture: tracker state holding the previous position of F1. -/
def exState : AppState :=
  { flights := [(("F1" : String), exPrev)], currentTime := 0 }

/-- Test fixture: a stale tracked position (timestamp 100). -/
def exStalePos : Position := mkPosition ("A1") 1 0 none 100

/-- Test fixture: a fresh tracked position (timestamp 500). -/
def exFreshPos : Position := mkPosition ("B2") 1 0 none 500

/-- Test fixture: tracker state at logical clock 1000 holding one stale
and one fresh flight. -/
def exSweepState : AppState :=
  { flights := [(("A1" : String), exStalePos), (("B2" : String), exFreshPos)],
    currentTime := 1000 }

/-- Test fixture: a position 50 nm out (outside the interesting radius)
with timestamp 40. -/
def exFarPos : Position := mkPosition ("F9") 50 0 none 40

/-- Test fixture: empty tracker at logical clock 100. -/
def exClockState : AppState := { flights := [], currentTime := 100 }

/-- Test fixture: a float parser recognizing only the literal used by the
concrete messages. -/
def exParseFloat (s : String) : Option ℚ :=
  if s = "5" then some 5 else none

/-- Test fixture: an integer parser recognizing only the literal used by
the concrete messages. -/
def exParseInt (s : String) : Option ℤ :=
  if s = "40" then some 40 else none

/-- Test fixture: a raw report with parseable mandatory fields, empty
optional fields and clock 40. -/
def exMsg : PositionMessage :=
  { idField := "F1", latField := "5", lonField := "5", altField := "",
    identField := "UAL1234", regField := "", origField := "",
    destField := "", aircraftTypeField := "", gsField := "",
    headingField := "", headingTrueField := "", clockField := "40" }

/-- Test fixture: the position `exMsg` parses to. -/
def exParsedPos : Position :=
  { flightID := "F1", point := { lat := 5, long := 5 }, altitude := none,
    ident := "UAL1234", reg := "", origin := "", destination := "",
    aircraftType := "", speed := none, heading := none, timestamp := 40 }

/-- Test fixture: `exMsg` with an unparseable latitude. -/
def exBadMsg : PositionMessage := { exMsg with latField := "zz" }

/-- Test fixture: an LCD position with a reported altitude. -/
def exLcd : LcdPosition :=
  { base := mkPosition ("L1") 1 0 (some 3000) 0, distance := 1, bearing := 90 }

/-- Test fixture: an LCD position with no reported altitude. -/
def exLcdNoAlt : LcdPosition :=
  { base := mkPosition ("L2") 2 0 none 0, distance := 2, bearing := 180 }

/-- Helper: the eight bearing conditions of `cardinalDirection` cover all
rationals, so the final fallback branch is unreachable. -/
lemma bearing_sectors_cover (b : ℚ) (h1 : ¬(b > 337.5 ∨ b ≤ 22.5))
    (h2 : ¬(b > 22.5 ∧ b ≤ 67.5)) (h3 : ¬(b > 67.5 ∧ b ≤ 112.5))
    (h4 : ¬(b > 112.5 ∧ b ≤ 157.5)) (h5 : ¬(b > 157.5 ∧ b ≤ 202.5))
    (h6 : ¬(b > 202.5 ∧ b ≤ 247.5)) (h7 : ¬(b > 247.5 ∧ b ≤ 292.5))
    (h8 : ¬(b > 292.5 ∧ b ≤ 337.5)) : False := by
  push_neg at h1 h2 h3 h4 h5 h6 h7 h8
  have g2 := h2 h1.2
  have g3 := h3 g2
  have g4 := h4 g3
  have g5 := h5 g4
  have g6 := h6 g5
  have g7 := h7 g6
  have g8 := h8 g7
  linarith [h1.1]

/-- Claim C2: for every tracker state and logical-clock value, the sweep
removes exactly the tracked flights whose stored timestamp is older than
the logical clock minus the 10-minute maximum age, leaves every other
entry unchanged and the clock untouched, and a second sweep with no new
reports ingested leaves the state identical. -/
theorem C2_stale_eviction : ∀ s : AppState,
    (∀ k p, (k, p) ∈ (cleanupStaleFlights s).flights ↔
      ((k, p) ∈ s.flights ∧ ¬ p.timestamp < s.currentTime - CleanupAfter)) ∧
    (cleanupStaleFlights s).currentTime = s.currentTime ∧
    cleanupStaleFlights (cleanupStaleFlights s) = cleanupStaleFlights s := by
  intro s
  have hfilter :
      ∀ (l : List (String × Position)) (pr : String × Position → Bool),
        (l.filter pr).filter pr = l.filter pr := by
    intro l pr
    exact List.filter_eq_self.mpr fun a ha => (List.mem_filter.mp ha).2
  refine ⟨?_, rfl, ?_⟩
  · intro k p
    simp only [cleanupStaleFlights, List.mem_filter, decide_eq_true_eq]
    exact and_congr_right fun _ => by unfold CleanupAfter; omega
  · simp only [cleanupStaleFlights]
    rw [hfilter]

/-- Claim C2 witness: in a concrete sweep at logical clock 1000, the entry
with timestamp 500 (age 500 seconds, under the 600-second threshold)
survives. -/
theorem C2_witness :
    (("B2" : String), exFreshPos) ∈ (cleanupStaleFlights exSweepState).flights :=
  ((C2_stale_eviction exSweepState).1 ("B2") exFreshPos).mpr
    ⟨by decide, by decide⟩

/-- Claim C4 counterexample: the claim asserts cardinalDirection(337.5) is
north, but the code places 337.5 in the northwest bucket, because the
north condition `bearing > 337.5` is strict. -/
theorem C4_counterexample :
    cardinalDirection (337.5 : ℚ) = "northwest" ∧
    ("northwest" : String) ≠ "north" := by
  constructor
  · unfold cardinalDirection
    norm_num
  · decide

/-- Claim C4 (amended): cardinalDirection buckets a bearing into eight
45-degree sectors, each inclusive on its upper edge, the north bucket
being bearing > 337.5 or bearing <= 22.5; hence cardinalDirection(0) and
cardinalDirection(22.5) are north, cardinalDirection(22.6) is northeast,
and both cardinalDirection(337.4) and cardinalDirection(337.5) are
northwest: 337.5 is the upper edge of the northwest sector, not part of
the north bucket. -/
theorem C4_cardinal_buckets_amended : ∀ b : ℚ,
    (cardinalDirection b = "north" ↔ (b > 337.5 ∨ b ≤ 22.5)) ∧
    (cardinalDirection b = "northwest" ↔ (b > 292.5 ∧ b ≤ 337.5)) ∧
    cardinalDirection 0 = "north" ∧
    cardinalDirection (22.5 : ℚ) = "north" ∧
    cardinalDirection (22.6 : ℚ) = "northeast" ∧
    cardinalDirection (337.5 : ℚ) = "northwest" ∧
    cardinalDirection (337.4 : ℚ) = "northwest" := by
  intro b
  refine ⟨?_, ?_, by unfold cardinalDirection; norm_num,
    by unfold cardinalDirection; norm_num, by unfold cardinalDirection; norm_num,
    by unfold cardinalDirection; norm_num, by unfold cardinalDirection; norm_num⟩
  · unfold cardinalDirection
    split_ifs with h1 h2 h3 h4 h5 h6 h7 h8
    · exact ⟨fun _ => h1, fun _ => rfl⟩
    all_goals exact ⟨fun habs => absurd habs (by decide), fun hr => absurd hr h1⟩
  · unfold cardinalDirection
    split_ifs with h1 h2 h3 h4 h5 h6 h7 h8
    · exact ⟨fun habs => absurd habs (by decide),
        fun hr => False.elim (by rcases h1 with h | h <;> linarith [hr.1, hr.2])⟩
    · exact ⟨fun habs => absurd habs (by decide),
        fun hr => False.elim (by linarith [hr.1, h2.2])⟩
    · exact ⟨fun habs => absurd habs (by decide),
        fun hr => False.elim (by linarith [hr.1, h3.2])⟩
    · exact ⟨fun habs => absurd habs (by decide),
        fun hr => False.elim (by linarith [hr.1, h4.2])⟩
    · exact ⟨fun habs => absurd habs (by decide),
        fun hr => False.elim (by linarith [hr.1, h5.2])⟩
    · exact ⟨fun habs => absurd habs (by decide),
        fun hr => False.elim (by linarith [hr.1, h6.2])⟩
    · exact ⟨fun habs => absurd habs (by decide),
        fun hr => False.elim (by linarith [hr.1, h7.2])⟩
    · exact ⟨fun _ => h8, fun _ => rfl⟩
    · exact ⟨fun habs => absurd habs (by decide), fun hr => absurd hr h8⟩

/-- Claim C4 witness: a bearing of 340 degrees, above the strict 337.5
boundary, is in the north bucket. -/
theorem C4_witness : cardinalDirection (340 : ℚ) = "north" :=
  ((C4_cardinal_buckets_amended 340).1).mpr (Or.inl (by norm_num))

/-- Claim C8: for every rational bearing the word-label and the
abbreviated-label cardinal direction return one of eight non-empty
labels (the empty-string fallback is unreachable), and every bearing at
most 22.5, as well as every bearing above 337.5 (including values at or
beyond 360), maps to north. -/
theorem C8_cardinal_total : ∀ b : ℚ,
    cardinalDirection b ∈ (["north", "northeast", "east", "southeast",
      "south", "southwest", "west", "northwest"] : List String) ∧
    cardinalDirection b ≠ ("") ∧
    cardinalDirectionAbbrev b ∈ (["N", "NE", "E", "SE", "S", "SW", "W",
      "NW"] : List String) ∧
    cardinalDirectionAbbrev b ≠ ("") ∧
    (b ≤ 22.5 → cardinalDirection b = "north" ∧ cardinalDirectionAbbrev b = "N") ∧
    (b > 337.5 → cardinalDirection b = "north" ∧ cardinalDirectionAbbrev b = "N") := by
  intro b
  refine ⟨?_, ?_, ?_, ?_, ?_, ?_⟩
  · unfold cardinalDirection
    split_ifs with h1 h2 h3 h4 h5 h6 h7 h8 <;>
      first
        | decide
        | exact (bearing_sectors_cover b h1 h2 h3 h4 h5 h6 h7 h8).elim
  · unfold cardinalDirection
    split_ifs with h1 h2 h3 h4 h5 h6 h7 h8 <;>
      first
        | decide
        | exact (bearing_sectors_cover b h1 h2 h3 h4 h5 h6 h7 h8).elim
  · unfold cardinalDirectionAbbrev
    split_ifs with h1 h2 h3 h4 h5 h6 h7 h8 <;>
      first
        | decide
        | exact (bearing_sectors_cover b h1 h2 h3 h4 h5 h6 h7 h8).elim
  · unfold cardinalDirectionAbbrev
    split_ifs with h1 h2 h3 h4 h5 h6 h7 h8 <;>
      first
        | decide
        | exact (bearing_sectors_cover b h1 h2 h3 h4 h5 h6 h7 h8).elim
  · intro hb
    exact ⟨by unfold cardinalDirection; rw [if_pos (Or.inr hb)],
      by unfold cardinalDirectionAbbrev; rw [if_pos (Or.inr hb)]⟩
  · intro hb
    exact ⟨by unfold cardinalDirection; rw [if_pos (Or.inl hb)],
      by unfold cardinalDirectionAbbrev; rw [if_pos (Or.inl hb)]⟩

/-- Claim C8 witness: at bearing 5 both label tables give north. -/
theorem C8_witness :
    cardinalDirection (5 : ℚ) = "north" ∧ cardinalDirectionAbbrev (5 : ℚ) = "N" :=
  (C8_cardinal_total 5).2.2.2.2.1 (by norm_num)

/-- Helper: the tracker stage always sets the logical clock to the
timestamp of the report it processes, interesting or not. -/
lemma trackPosition_currentTime (distNM : Latlong → Latlong → ℚ) (a : App)
    (s : AppState) (curr : Position) :
    (trackPosition distNM a s curr).1.currentTime = curr.timestamp := by
  unfold trackPosition
  by_cases hint : isInteresting distNM a curr = true <;> simp [hint]

/-- Claim C1: when a previous tracked position exists for the flight and
the current report passes the interest filter, an alert is raised iff the
distance from the current position to the center is strictly less than
both the distance from the previous position to the center and the alert
radius; when no previous position exists no alert is raised for any
current position, the position being only stored for the next
comparison. -/
theorem C1_approach_detection : ∀ (distNM : Latlong → Latlong → ℚ)
    (a : App) (s : AppState) (curr : Position),
    (s.flights.lookup curr.flightID = none →
      (trackPosition distNM a s curr).2 = false) ∧
    (s.flights.lookup curr.flightID = none →
      isInteresting distNM a curr = true →
      (trackPosition distNM a s curr).1.flights.lookup curr.flightID = some curr) ∧
    (∀ prev, s.flights.lookup curr.flightID = some prev →
      isInteresting distNM a curr = true →
      ((trackPosition distNM a s curr).2 = true ↔
        (distNM curr.point (myLocation a) < distNM prev.point (myLocation a) ∧
         distNM curr.point (myLocation a) < a.alertRadiusNM))) := by
  intro distNM a s curr
  refine ⟨?_, ?_, ?_⟩
  · intro hnone
    unfold trackPosition
    by_cases hint : isInteresting distNM a curr = true
    · simp [hint, hnone]
    · simp [hint]
  · intro hnone hint
    unfold trackPosition
    simp only [hint, if_true]
    unfold insertFlight
    simp [List.lookup]
  · intro prev hprev hint
    unfold trackPosition
    simp [hint, hprev, decide_eq_true_eq]

/-- Claim C1 witness: flight F1 previously 2 nm out, now 1 nm out, inside
the 3 nm alert radius: the tracker raises an alert. -/
theorem C1_witness : (trackPosition exDist exApp exState exCurr).2 = true := by
  have hiff := (C1_approach_detection exDist exApp exState exCurr).2.2 exPrev
    (by decide)
    (by norm_num [isInteresting, exDist, exApp, exCurr, mkPosition, myLocation])
  exact hiff.mpr
    (by norm_num [exDist, exApp, exCurr, exPrev, mkPosition, myLocation])

/-- Claim C3 counterexample: a report 50 nm out fails the interest filter
and never reaches the tracker stage, yet handling it still rewrites the
logical clock, here from 100 back to 40: the clock is advanced by reports
that do not pass the filter, and it can decrease. -/
theorem C3_counterexample :
    isInteresting exDist exApp exFarPos = false ∧
    (trackPosition exDist exApp exClockState exFarPos).1.currentTime = 40 ∧
    exClockState.currentTime = 100 := by
  refine ⟨?_, ?_, rfl⟩
  · norm_num [isInteresting, exDist, exApp, exFarPos, mkPosition, myLocation]
  · exact trackPosition_currentTime exDist exApp exClockState exFarPos

/-- Claim C3 (amended): the logical clock is set to the timestamp of every
successfully parsed report, whether or not it passes the interest filter;
it holds the most recently received timestamp, so it is rewound when a
report with an older timestamp arrives.  A report whose parse fails leaves
the whole state, clock included, unchanged. -/
theorem C3_logical_clock_amended : ∀ (pf : String → Option ℚ)
    (pint : String → Option ℤ) (distNM : Latlong → Latlong → ℚ) (a : App)
    (s : AppState) (msg : PositionMessage),
    (∀ curr, newPosition pf pint msg = Except.ok curr →
      (handlePosition pf pint distNM a s msg).1.currentTime = curr.timestamp) ∧
    (∀ e, newPosition pf pint msg = Except.error e →
      (handlePosition pf pint distNM a s msg).1 = s) := by
  intro pf pint distNM a s msg
  constructor
  · intro curr hok
    unfold handlePosition
    rw [hok]
    exact trackPosition_currentTime distNM a s curr
  · intro e herr
    unfold handlePosition
    rw [herr]

/-- Claim C5: altitudeToWords integer-truncates its argument, splits into
thousands and hundreds digit groups, and emits each group phonetically
with its unit word exactly when the group is strictly positive, matching
the four specification examples. -/
theorem C5_altitude_to_words : ∀ alt : ℚ,
    (altitudeToWords alt =
      (if Int.tdiv (goTrunc alt) 1000 > 0 then
        phonetic (toString (Int.tdiv (goTrunc alt) 1000)) ++ ["thousand"]
      else []) ++
      (if Int.tdiv (goTrunc alt - Int.tdiv (goTrunc alt) 1000 * 1000) 100 > 0 then
        phonetic
          (toString (Int.tdiv (goTrunc alt - Int.tdiv (goTrunc alt) 1000 * 1000) 100))
          ++ ["hundred"]
      else [])) ∧
    altitudeToWords 100 = ["one", "hundred"] ∧
    altitudeToWords 1000 = ["one", "thousand"] ∧
    altitudeToWords 11220 = ["one", "one", "thousand", "two", "hundred"] ∧
    altitudeToWords 9999 = ["niner", "thousand", "niner", "hundred"] := by
  intro alt
  exact ⟨rfl, by decide, by decide, by decide, by decide⟩

/-- Claim C9: every altitude whose integer truncation is below 100,
including zero and all negative altitudes, verbalizes to the empty word
list, and the spoken sentence for such a position contains "at" followed
immediately by the comma. -/
theorem C9_low_altitude : ∀ alt : ℚ, goTrunc alt < 100 →
    altitudeToWords alt = [] ∧
    (∀ (distStr speedStr : String) (bearing : ℚ) (curr : Position),
      curr.altitude = some alt →
      ∃ pre post,
        sayWords distStr bearing curr speedStr =
          pre ++ (["at", ","] : List String) ++ post) := by
  intro alt halt
  have hwords : altitudeToWords alt = [] := by
    unfold altitudeToWords
    have hth : ¬ Int.tdiv (goTrunc alt) 1000 > 0 := by
      rcases le_or_lt 0 (goTrunc alt) with h0 | h0
      · have hz : Int.tdiv (goTrunc alt) 1000 = 0 :=
          Int.tdiv_eq_zero_of_lt h0 (by omega)
        omega
      · have hneg : Int.tdiv (goTrunc alt) 1000 ≤ 0 := by
          have h1 : goTrunc alt = -(-(goTrunc alt)) := by ring
          rw [h1, Int.neg_tdiv]
          have h2 := Int.tdiv_nonneg (a := -(goTrunc alt)) (b := 1000)
            (by omega) (by omega)
          omega
        omega
    have hhun :
        ¬ Int.tdiv (goTrunc alt - Int.tdiv (goTrunc alt) 1000 * 1000) 100 > 0 := by
      rcases le_or_lt 0 (goTrunc alt) with h0 | h0
      · have hz : Int.tdiv (goTrunc alt) 1000 = 0 :=
          Int.tdiv_eq_zero_of_lt h0 (by omega)
        have hsub : goTrunc alt - Int.tdiv (goTrunc alt) 1000 * 1000 = goTrunc alt := by
          rw [hz]; ring
        rw [hsub]
        have hz2 : Int.tdiv (goTrunc alt) 100 = 0 :=
          Int.tdiv_eq_zero_of_lt h0 (by omega)
        omega
      · have hrem : goTrunc alt - Int.tdiv (goTrunc alt) 1000 * 1000 =
            Int.tmod (goTrunc alt) 1000 := by
          rw [Int.tmod_def]; ring
        rw [hrem]
        have hmodle : Int.tmod (goTrunc alt) 1000 ≤ 0 := by
          have h1 : goTrunc alt = -(-(goTrunc alt)) := by ring
          have h2 : Int.tmod (-(-(goTrunc alt))) 1000 =
              -(Int.tmod (-(goTrunc alt)) 1000) := by
            simp [Int.tmod_def, Int.neg_tdiv]
            ring
          have h3 := Int.tmod_nonneg 1000 (a := -(goTrunc alt)) (by omega)
          rw [h1, h2]
          omega
        have hfin : Int.tdiv (Int.tmod (goTrunc alt) 1000) 100 ≤ 0 := by
          have h1 : Int.tmod (goTrunc alt) 1000 =
              -(-(Int.tmod (goTrunc alt) 1000)) := by ring
          rw [h1, Int.neg_tdiv]
          have h2 := Int.tdiv_nonneg (a := -(Int.tmod (goTrunc alt) 1000))
            (b := 100) (by omega) (by omega)
          omega
        omega
    dsimp only
    rw [if_neg hth, if_neg hhun]
    rfl
  refine ⟨hwords, ?_⟩
  intro distStr speedStr bearing curr hca
  refine ⟨identToWords curr.ident ++ ["is"] ++ phonetic distStr
      ++ ["nautical miles"] ++ ["to the", cardinalDirection bearing, ","],
    (match curr.heading with
      | some hdg => [cardinalDirection hdg, "bound", ","]
      | none => []) ++
    (match curr.speed with
      | some _ => phonetic speedStr ++ ["knots"]
      | none => []), ?_⟩
  unfold sayWords
  rw [hca]
  simp [hwords]

/-- Claim C9 witness: an altitude of 50 feet yields no altitude words. -/
theorem C9_witness : altitudeToWords (50 : ℚ) = [] :=
  (C9_low_altitude 50 (by decide)).1

/-- Claim C3 witness: handling the concrete report with clock 40 while the
logical clock stands at 100 sets the clock to 40. -/
theorem C3_witness :
    (handlePosition exParseFloat exParseInt exDist exApp exClockState
      exMsg).1.currentTime = 40 :=
  (C3_logical_clock_amended exParseFloat exParseInt exDist exApp exClockState
    exMsg).1 exParsedPos rfl

/-- Claim C6: identToWords phoneticizes the whole ident when its first
three characters are not all uppercase letters or the three-letter code
has no callsign mapping; otherwise it emits the mapped callsign word
followed by the suffix decomposition, matching the three specification
examples. -/
theorem C6_ident_to_words : ∀ ident : String,
    ((¬ ((ident.data.take 3).length = 3 ∧
         (ident.data.take 3).all isUpperAlpha = true) ∨
      icaoCallsign (icaoCode ident) = "") →
      identToWords ident = phonetic ident) ∧
    (∀ cs, (ident.data.take 3).length = 3 →
      (ident.data.take 3).all isUpperAlpha = true →
      icaoCallsign (String.mk (ident.data.take 3)) = cs → cs ≠ "" →
      identToWords ident =
        cs :: specSuffixDecomposition (String.mk (ident.data.drop 3))) ∧
    identToWords ("UAL1234") = ["united", "12", "34"] ∧
    identToWords ("FDX1") = ["fedex", "one"] ∧
    identToWords ("ZZZ10") = ["zulu", "zulu", "zulu", "one", "zero"] := by
  intro ident
  refine ⟨?_, ?_, by decide, by decide, by decide⟩
  · intro h
    rcases h with h | h
    · have hcode : icaoCode ident = "" := by
        unfold icaoCode
        rw [if_neg h]
      unfold identToWords
      dsimp only
      rw [hcode]
      simp
    · by_cases hc : icaoCode ident = ""
      · unfold identToWords
        dsimp only
        rw [hc]
        simp
      · unfold identToWords
        dsimp only
        rw [if_neg hc, h]
        simp
  · intro cs h3 hall hcs hne
    have hcode : icaoCode ident = String.mk (ident.data.take 3) := by
      unfold icaoCode
      rw [if_pos ⟨h3, hall⟩]
    have hne2 : icaoCode ident ≠ "" := by
      rw [hcode]
      intro habs
      have h0 : ident.data.take 3 = [] := congrArg String.data habs
      rw [h0] at h3
      simp at h3
    unfold identToWords
    dsimp only
    rw [if_neg hne2, hcode, hcs, if_neg hne]
    unfold specSuffixDecomposition
    dsimp only
    split_ifs with hd
    · obtain ⟨h2, h4, hdig⟩ := hd
      have hlen : (ident.data.drop 3).length = 2 ∨
          (ident.data.drop 3).length = 3 ∨
          (ident.data.drop 3).length = 4 := by omega
      rcases hlen with h | h | h <;> rw [h]
    · rfl

/-- Claim C6 witness: UAL12 is verbalized as united followed by the
two-digit suffix decomposition. -/
theorem C6_witness :
    identToWords ("UAL12") = ("united" : String) :: specSuffixDecomposition ("12") :=
  (C6_ident_to_words ("UAL12")).2.1 ("united") (by decide) (by decide)
    (by decide) (by decide)

/-- Claim C7: building a Position from a raw report fails with a typed
error naming the offending field exactly when a mandatory field (latitude,
longitude or clock) fails to parse or a non-empty optional field
(altitude, ground speed, or the selected heading candidate) fails to
parse; an empty optional field yields absent with no error, and on
success no optional field is defaulted. -/
theorem C7_position_builder : ∀ (pf : String → Option ℚ)
    (pint : String → Option ℤ) (msg : PositionMessage),
    ((∃ e, newPosition pf pint msg = Except.error e) ↔
      (pf msg.latField = none ∨ pf msg.lonField = none
       ∨ (msg.altField ≠ "" ∧ pf msg.altField = none)
       ∨ (msg.gsField ≠ "" ∧ pf msg.gsField = none)
       ∨ (selectedHeading msg ≠ "" ∧ pf (selectedHeading msg) = none)
       ∨ pint msg.clockField = none)) ∧
    (newPosition pf pint msg = Except.error ParseField.lat →
      pf msg.latField = none) ∧
    (newPosition pf pint msg = Except.error ParseField.lon →
      pf msg.lonField = none) ∧
    (newPosition pf pint msg = Except.error ParseField.alt →
      msg.altField ≠ "" ∧ pf msg.altField = none) ∧
    (newPosition pf pint msg = Except.error ParseField.gs →
      msg.gsField ≠ "" ∧ pf msg.gsField = none) ∧
    (newPosition pf pint msg = Except.error ParseField.heading →
      selectedHeading msg ≠ "" ∧ pf (selectedHeading msg) = none) ∧
    (newPosition pf pint msg = Except.error ParseField.clock →
      pint msg.clockField = none) ∧
    (∀ pos, newPosition pf pint msg = Except.ok pos →
      pos.altitude = (if msg.altField = "" then none else pf msg.altField) ∧
      pos.speed = (if msg.gsField = "" then none else pf msg.gsField) ∧
      pos.heading =
        (if selectedHeading msg = "" then none else pf (selectedHeading msg))) := by
  intro pf pint msg
  by_cases halt : msg.altField = "" <;>
  by_cases hgs : msg.gsField = "" <;>
  by_cases hhd : selectedHeading msg = "" <;>
  rcases hlat : pf msg.latField with _ | lat <;>
  rcases hlon : pf msg.lonField with _ | lon <;>
  rcases haltp : pf msg.altField with _ | altv <;>
  rcases hgsp : pf msg.gsField with _ | gsv <;>
  rcases hhdp : pf (selectedHeading msg) with _ | hdv <;>
  rcases hclk : pint msg.clockField with _ | clkv <;>
  simp [newPosition, hlat, hlon, halt, hgs, hhd, haltp, hgsp, hhdp, hclk]

/-- Claim C7 witness: a report with an unparseable latitude fails with a
typed error. -/
theorem C7_witness :
    ∃ e, newPosition exParseFloat exParseInt exBadMsg = Except.error e :=
  (C7_position_builder exParseFloat exParseInt exBadMsg).1.mpr
    (Or.inl (by decide))

/-- Claim C10: the LCD replacement decision compares 3-D slant distances
in which a position with absent altitude is treated as being at exactly
5000 feet (substituting 5000 for the absent altitude changes nothing),
and with no previous position every new position is accepted. -/
theorem C10_should_replace : ∀ (sqrtFt : ℚ → ℚ) (now : ℤ) (curr : LcdPosition),
    shouldReplace sqrtFt now none curr = true ∧
    (∀ prev : LcdPosition,
      (shouldReplace sqrtFt now (some prev) curr = true ↔
        (sqrtFt (curr.distance * FT_PER_NM * (curr.distance * FT_PER_NM) +
            assumeAltitude curr * assumeAltitude curr) <
         sqrtFt (prev.distance * FT_PER_NM * (prev.distance * FT_PER_NM) +
            assumeAltitude prev * assumeAltitude prev) ∨
         now - prev.base.timestamp > 60))) ∧
    (∀ prev : LcdPosition, prev.base.altitude = none →
      shouldReplace sqrtFt now (some prev) curr =
        shouldReplace sqrtFt now
          (some { prev with base := { prev.base with altitude := some 5000 } }) curr) ∧
    (∀ prev : LcdPosition, curr.base.altitude = none →
      shouldReplace sqrtFt now (some prev) curr =
        shouldReplace sqrtFt now (some prev)
          { curr with base := { curr.base with altitude := some 5000 } }) := by
  intro sqrtFt now curr
  refine ⟨rfl, ?_, ?_, ?_⟩
  · intro prev
    unfold shouldReplace
    dsimp only
    split_ifs with h1 h2
    · simp [h1]
    · simp [h1, h2]
    · simp [h1, h2]
  · intro prev hn
    unfold shouldReplace assumeAltitude
    dsimp only
    rw [hn]
  · intro prev hn
    unfold shouldReplace assumeAltitude
    dsimp only
    rw [hn]

/-- Claim C10 witness: with no previous LCD position the new position is
accepted, and defaulting the absent altitude of a previous position to
5000 feet leaves the decision unchanged. -/
theorem C10_witness :
    shouldReplace (fun q => q) 0 none exLcd = true ∧
    shouldReplace (fun q => q) 0 (some exLcdNoAlt) exLcd =
      shouldReplace (fun q => q) 0
        (some { exLcdNoAlt with
          base := { exLcdNoAlt.base with altitude := some 5000 } }) exLcd :=
  ⟨(C10_should_replace (fun q => q) 0 exLcd).1,
    (C10_should_replace (fun q => q) 0 exLcd).2.2.1 exLcdNoAlt rfl⟩

end Overhead
